import Mathlib

/-!
# Verification of the Amstrad CPC container-format core

Shallow embedding of the core of `TheAbbeyOfCrime` (files `cpcsnapshot.py`,
`cpcdiskimage.py`, `cpcimage.py`, and the disk-image serialization in
`patch.py`).  Bytearrays are modelled as `List Nat`; byte reads
`buf[i]` are `List.getD buf i 0`, byte writes `buf[i] = v` are
`List.set buf i v`, and Python slice assignment `buf[a:a+len(bs)] = bs`
is `overwriteAt buf a bs`.  A Python method that may raise is modelled
either as an `Except` (when it cannot mutate before raising) or as a
pair `state × Option error` (when an exception may leave partial
mutations behind, as in the bulk setters): every `raise` returns the
state accumulated so far together with the error.
-/

deriving instance DecidableEq for Except

/-- Python `buf[a:a+len(bs)] = bs` on a bytearray: replace the byte range
starting at `a` by `bs` (extending at the end when the range runs past the
end of the buffer, exactly like Python slice assignment). -/
def overwriteAt (buf : List Nat) (a : Nat) (bs : List Nat) : List Nat :=
  buf.take a ++ bs ++ buf.drop (a + bs.length)

/-! ## Snapshot (`cpcsnapshot.py`)

Only the snapshot header (`self.header`, a 256-byte bytearray) and the
memory (`self.memory`) are needed by the claims below; they are passed
explicitly. -/

/-- Error kinds raised by the `Snapshot` class. -/
inductive SnapErr where
  | valueError
  | listSizeError (min_length max_length : Nat)
  | memoryError
  deriving DecidableEq, Repr

/-- `Snapshot.firmware_inks`: the fixed table converting hardware ink values
to firmware ink values. -/
def firmware_inks : List Nat :=
  [13,27,19,25, 1, 7,10,16,28,29,24,26, 6, 8,15,17,
   30,31,18,20, 0, 2, 9,11, 4,22,21,23, 3, 5,12,14]

/-- `Snapshot._validate_hardware_ink_colour`: a hardware ink colour is valid
when it lies in `range(0,0x20)` or in `range(0x40,0x60)`. -/
def validate_hardware_ink_colour (colour : Nat) : Bool :=
  colour < 0x20 || (0x40 ≤ colour && colour < 0x60)

/-- `Snapshot.get_ink`: read ink `ink` from the header, masking with `0x3f`. -/
def get_ink (header : List Nat) (ink : Nat) : Nat :=
  header.getD (ink + 0x2f) 0 &&& 0x3f

/-- `Snapshot.get_firmware_ink`: look the masked header byte up in the
`firmware_inks` table.  `none` models the `IndexError` Python raises when
the masked byte is not a valid index into the 32-entry table. -/
def get_firmware_ink (header : List Nat) (ink : Nat) : Option Nat :=
  firmware_inks.get? (header.getD (ink + 0x2f) 0 &&& 0x3f)

/-- `Snapshot.get_firmware_inks`: the firmware colours of all 16 inks. -/
def get_firmware_inks (header : List Nat) : List (Option Nat) :=
  (List.range 16).map (get_firmware_ink header)

/-- `Snapshot.set_ink`: rejects `ink ∉ range(0,16)` and
`colour ∉ range(0,32)`, otherwise stores the colour at header offset
`ink + 0x2f`.  Returns the (possibly mutated) header and an optional
error. -/
def set_ink (header : List Nat) (ink colour : Nat) :
    List Nat × Option SnapErr :=
  if ¬ ink < 16 then (header, some .valueError)
  else if ¬ colour < 32 then (header, some .valueError)
  else (header.set (ink + 0x2f) colour, none)

/-- The loop body of `Snapshot.set_inks`: for each ink index in turn,
validate the colour with `_validate_hardware_ink_colour` and then call
`set_ink`; mutations made before a failing element persist. -/
def set_inks_loop (header : List Nat) (inks : List Nat) (ink : Nat) :
    List Nat × Option SnapErr :=
  match inks with
  | [] => (header, none)
  | colour :: rest =>
    if validate_hardware_ink_colour colour = false then
      (header, some .valueError)
    else
      match set_ink header ink colour with
      | (h, some e) => (h, some e)
      | (h, none) => set_inks_loop h rest (ink + 1)

/-- `Snapshot.set_inks`: the list must contain `range(1,17)` items, then
each element is validated and written in turn. -/
def set_inks (header : List Nat) (inks : List Nat) :
    List Nat × Option SnapErr :=
  if ¬ (1 ≤ inks.length ∧ inks.length < 17) then
    (header, some (.listSizeError 1 16))
  else set_inks_loop header inks 0

/-- `Snapshot.set_crtc_register`: rejects `register ∉ range(0,18)` and
`value ∉ range(0,256)`, otherwise stores the value at header offset
`register + 0x43`. -/
def set_crtc_register (header : List Nat) (register value : Nat) :
    List Nat × Option SnapErr :=
  if ¬ register < 18 then (header, some .valueError)
  else if ¬ value < 256 then (header, some .valueError)
  else (header.set (register + 0x43) value, none)

/-- The loop body of `Snapshot.set_crtc_registers`: for each register index
in turn, check `value ∈ range(0,256)` and then call `set_crtc_register`;
mutations made before a failing element persist. -/
def set_crtc_registers_loop (header : List Nat) (registers : List Nat)
    (register : Nat) : List Nat × Option SnapErr :=
  match registers with
  | [] => (header, none)
  | value :: rest =>
    if ¬ value < 256 then (header, some .valueError)
    else
      match set_crtc_register header register value with
      | (h, some e) => (h, some e)
      | (h, none) => set_crtc_registers_loop h rest (register + 1)

/-- `Snapshot.set_crtc_registers`: the list must contain `range(1,18)`
items (note: the source tests `len(registers) not in range(1,18)`, so a
list of 18 items is rejected), then each element is checked and written in
turn. -/
def set_crtc_registers (header : List Nat) (registers : List Nat) :
    List Nat × Option SnapErr :=
  if ¬ (1 ≤ registers.length ∧ registers.length < 18) then
    (header, some (.listSizeError 1 18))
  else set_crtc_registers_loop header registers 0

/-- `Snapshot.insert_bytes`: with `end_offset = len(bytes)+start-1`
(inlined below), fail when the range crosses the 64 KiB boundary, or
starts in banked RAM and runs past the end of memory; otherwise overwrite
in place. -/
def insert_bytes (memory bs : List Nat) (start_offset : Nat) :
    Except SnapErr (List Nat) :=
  if start_offset < 0x10000 ∧ 0x10000 ≤ bs.length + start_offset - 1 then
    .error .memoryError
  else if 0x10000 ≤ start_offset ∧
      memory.length ≤ bs.length + start_offset - 1 then
    .error .memoryError
  else .ok (overwriteAt memory start_offset bs)

/-- A 256-byte all-zero snapshot header, used as a concrete test state. -/
def zeroHeader : List Nat := List.replicate 256 0

/-! ## Disk images (`cpcdiskimage.py`) -/

/-- Error kinds raised by the `DiskImage` class. -/
inductive DiskErr where
  | fileFormatError
  | invalidTrackError (track : Nat)
  | trackDataError (track : Nat)
  | invalidSectorError (track sector : Nat)
  | sectorWriteError (track sector : Nat)
  deriving DecidableEq, Repr

/-- A disk image: the 256-byte disk information block and the
concatenation of the track information blocks. -/
structure DiskImage where
  header : List Nat
  track_info_block : List Nat
  deriving DecidableEq, Repr

/-- The ASCII bytes of `'EXTENDED CPC DSK File\r\n'`, the 23-byte magic
signature of an extended CPC disk image. -/
def diskImageMagic : List Nat :=
  [69, 88, 84, 69, 78, 68, 69, 68, 32, 67, 80, 67, 32, 68, 83, 75, 32,
   70, 105, 108, 101, 13, 10]

/-- `DiskImage.__init__` on an in-memory byte stream: the first 256 bytes
are the header; the first 23 of them must be the magic signature; the rest
of the stream is the track information block. -/
def DiskImage.ofStream (s : List Nat) : Except DiskErr DiskImage :=
  let header := s.take 256
  if header.take 23 ≠ diskImageMagic then .error .fileFormatError
  else .ok ⟨header, s.drop 256⟩

/-- Writing a disk image back out (`patch.py`: `file.write(abadia_dsk.header)`
followed by `file.write(abadia_dsk.track_info_block)`). -/
def DiskImage.serialize (d : DiskImage) : List Nat :=
  d.header ++ d.track_info_block

/-- `DiskImage.number_of_tracks`: header byte `0x30`. -/
def DiskImage.number_of_tracks (d : DiskImage) : Nat :=
  d.header.getD 0x30 0

/-- `DiskImage.get_track_info_block_size`: header byte `0x34 + track`
times `0x100` (the per-track size table stores sizes in 256-byte units). -/
def DiskImage.track_size (d : DiskImage) (track : Nat) : Nat :=
  d.header.getD (0x34 + track) 0 * 0x100

/-- `DiskImage.get_track_info_block_offset` without its validation: the sum
of the sizes of all earlier tracks. -/
def DiskImage.track_offset (d : DiskImage) (track : Nat) : Nat :=
  ((List.range track).map (fun i => d.track_size i)).sum

/-- One 8-byte sector descriptor from a track information block:
track/cylinder (C), side/head (H), sector ID (R), sector size code (N),
the two FDC status registers, and the actual size of the sector data in
the disk image file (bytes 6-7, low byte first). -/
structure SectorInfo where
  c : Nat
  h : Nat
  r : Nat
  n : Nat
  st1 : Nat
  st2 : Nat
  size : Nat
  deriving DecidableEq, Repr

/-- A placeholder descriptor used as the default of `List.getD`. -/
def dummySector : SectorInfo := ⟨0, 0, 0, 0, 0, 0, 0⟩

/-- The descriptor list read by `DiskImage.get_sector_info` for a track that
has data: the sector count is at offset `+0x15` of the track information
block, and the 8-byte descriptors start at offset `+0x18`. -/
def DiskImage.sector_descriptors (d : DiskImage) (track : Nat) :
    List SectorInfo :=
  let off := d.track_offset track
  let tib := d.track_info_block
  (List.range (tib.getD (off + 0x15) 0)).map (fun s =>
    let p := off + 0x18 + 8 * s
    { c := tib.getD p 0
      h := tib.getD (p + 1) 0
      r := tib.getD (p + 2) 0
      n := tib.getD (p + 3) 0
      st1 := tib.getD (p + 4) 0
      st2 := tib.getD (p + 5) 0
      size := tib.getD (p + 6) 0 + tib.getD (p + 7) 0 * 0x100 })

/-- `DiskImage.get_sector_info`: validate the track number, return `[]`
when the track has no data, and otherwise read the descriptor list. -/
def DiskImage.get_sector_info (d : DiskImage) (track : Nat) :
    Except DiskErr (List SectorInfo) :=
  if ¬ track < d.number_of_tracks then .error (.invalidTrackError track)
  else if d.track_size track = 0 then .ok []
  else .ok (d.sector_descriptors track)

/-- The scan loop of `DiskImage.read_sector`: walk the descriptor list,
return the slice `tib[ptr : ptr + 128 * 2**N]` at the first matching
sector ID, advancing the cursor by each non-matching descriptor's actual
byte length. -/
def read_sector_loop (tib : List Nat) (track sector : Nat)
    (sis : List SectorInfo) (ptr : Nat) : Except DiskErr (List Nat) :=
  match sis with
  | [] => .error (.invalidSectorError track sector)
  | si :: rest =>
    if si.r = sector then .ok ((tib.drop ptr).take (128 * 2 ^ si.n))
    else read_sector_loop tib track sector rest (ptr + si.size)

/-- `DiskImage.read_sector`: validate the track, fail when it has no data,
then scan its descriptors starting at offset `+0x100` of its track
information block. -/
def DiskImage.read_sector (d : DiskImage) (track sector : Nat) :
    Except DiskErr (List Nat) :=
  if ¬ track < d.number_of_tracks then .error (.invalidTrackError track)
  else if d.track_size track = 0 then .error (.trackDataError track)
  else
    read_sector_loop d.track_info_block track sector
      (d.sector_descriptors track) (d.track_offset track + 0x100)

/-- The scan loop of `DiskImage.write_sector`: at the first matching sector
ID, fail when the data length differs from the descriptor's actual byte
length, otherwise overwrite the byte range in place.  Returns the
(possibly mutated) track information block and an optional error. -/
def write_sector_loop (tib : List Nat) (track sector : Nat)
    (sis : List SectorInfo) (ptr : Nat) (data : List Nat) :
    List Nat × Option DiskErr :=
  match sis with
  | [] => (tib, some (.invalidSectorError track sector))
  | si :: rest =>
    if si.r = sector then
      if data.length ≠ si.size then
        (tib, some (.sectorWriteError track sector))
      else (overwriteAt tib ptr data, none)
    else write_sector_loop tib track sector rest (ptr + si.size) data

/-- `DiskImage.write_sector`: validate the track, fail when it has no data,
then scan its descriptors starting at offset `+0x100` of its track
information block. -/
def DiskImage.write_sector (d : DiskImage) (track sector : Nat)
    (data : List Nat) : List Nat × Option DiskErr :=
  if ¬ track < d.number_of_tracks then
    (d.track_info_block, some (.invalidTrackError track))
  else if d.track_size track = 0 then
    (d.track_info_block, some (.trackDataError track))
  else
    write_sector_loop d.track_info_block track sector
      (d.sector_descriptors track) (d.track_offset track + 0x100) data

/-! ## Pixel codec (`cpcimage.py`) -/

/-- Error kinds raised by the pixel codec. -/
inductive ImgErr where
  | listSizeError
  | valueError
  deriving DecidableEq, Repr

/-- The Mode 0 packing of `encode_pixels` (bit layout
`L0 R0 L2 R2 L1 R1 L3 R3`). -/
def encodeMode0 (l r : Nat) : Nat :=
  ((l &&& 0x08) >>> 2 ||| (l &&& 0x04) <<< 3 |||
   (l &&& 0x02) <<< 2 ||| (l &&& 0x01) <<< 7) |||
  ((r &&& 0x08) >>> 3 ||| (r &&& 0x04) <<< 2 |||
   (r &&& 0x02) <<< 1 ||| (r &&& 0x01) <<< 6)

/-- The Mode 1 packing of `encode_pixels` (bit layout
`P0,0 P1,0 P2,0 P3,0 P0,1 P1,1 P2,1 P3,1`). -/
def encodeMode1 (p0 p1 p2 p3 : Nat) : Nat :=
  ((p0 &&& 0x02) <<< 2 ||| (p0 &&& 0x01) <<< 7) |||
  ((p1 &&& 0x02) <<< 1 ||| (p1 &&& 0x01) <<< 6) |||
  ((p2 &&& 0x02) ||| (p2 &&& 0x01) <<< 5) |||
  ((p3 &&& 0x02) >>> 1 ||| (p3 &&& 0x01) <<< 4)

/-- `encode_pixels`: exactly 2 pixels (each 0-15, Mode 0) or 4 pixels
(each 0-3, Mode 1) are packed into one byte. -/
def encode_pixels (pixels : List Nat) : Except ImgErr Nat :=
  if pixels.length ≠ 2 ∧ pixels.length ≠ 4 then .error .listSizeError
  else
    let max_pixel_value := if pixels.length = 2 then 15 else 3
    if pixels.any (fun p => max_pixel_value < p) then .error .valueError
    else if pixels.length = 2 then
      .ok (encodeMode0 (pixels.getD 0 0) (pixels.getD 1 0))
    else
      .ok (encodeMode1 (pixels.getD 0 0) (pixels.getD 1 0)
        (pixels.getD 2 0) (pixels.getD 3 0))

/-- `decode_pixels`: unpack one byte into 2 pixels (Mode 0) or 4 pixels
(Mode 1); bytes outside 0-255 and modes outside {0,1} are rejected. -/
def decode_pixels (byte screen_mode : Nat) : Except ImgErr (List Nat) :=
  if ¬ byte < 256 then .error .valueError
  else if screen_mode ≠ 0 ∧ screen_mode ≠ 1 then .error .valueError
  else if screen_mode = 0 then
    .ok [(byte &&& 0x02) <<< 2 ||| (byte &&& 0x20) >>> 3 |||
           (byte &&& 0x08) >>> 2 ||| (byte &&& 0x80) >>> 7,
         (byte &&& 0x01) <<< 3 ||| (byte &&& 0x10) >>> 2 |||
           (byte &&& 0x04) >>> 1 ||| (byte &&& 0x40) >>> 6]
  else
    .ok [(byte &&& 0x08) >>> 2 ||| (byte &&& 0x80) >>> 7,
         (byte &&& 0x04) >>> 1 ||| (byte &&& 0x40) >>> 6,
         (byte &&& 0x02) ||| (byte &&& 0x20) >>> 5,
         (byte &&& 0x01) <<< 1 ||| (byte &&& 0x10) >>> 4]

/-! ## Auxiliary definitions used to state the theorems -/

/-- The effect of the mutating iterations of the `set_inks` loop: store the
colours at consecutive ink offsets starting at ink number `ink`. -/
def applyInksFrom (header : List Nat) (colours : List Nat) (ink : Nat) :
    List Nat :=
  match colours with
  | [] => header
  | c :: rest => applyInksFrom (header.set (ink + 0x2f) c) rest (ink + 1)

/-- The effect of the mutating iterations of the `set_crtc_registers` loop:
store the values at consecutive CRTC-register offsets starting at register
number `register`. -/
def applyCrtcFrom (header : List Nat) (values : List Nat) (register : Nat) :
    List Nat :=
  match values with
  | [] => header
  | v :: rest => applyCrtcFrom (header.set (register + 0x43) v) rest (register + 1)

/-- Total declared actual byte length of a list of sector descriptors: the
distance the read/write cursor advances past them. -/
def sectorSizesSum (sis : List SectorInfo) : Nat :=
  (sis.map (fun si => si.size)).sum

/-- A disk image whose header declares one track whose size code is zero:
track 0 exists but has no data. -/
def diskNoData : DiskImage :=
  ⟨(List.replicate 256 0).set 0x30 1, []⟩

/-- A disk-image header declaring one track of info-block size
`3 * 0x100` bytes (a 0x100-byte track header plus 512 bytes of data). -/
def diskHeaderOneTrack : List Nat :=
  ((List.replicate 256 0).set 0x30 1).set 0x34 3

/-- A 768-byte track information block holding one sector with ID `0x21`,
size code `N = 2` (i.e. `128 * 2^2 = 512` bytes) and declared actual data
length 512 (bytes 6-7 of the descriptor are `0x00 0x02`). -/
def tibConsistent : List Nat :=
  ((((List.replicate 768 0).set 0x15 1).set 0x1a 0x21).set 0x1b 2).set 0x1f 2

/-- A 768-byte track information block holding one sector with ID `0x21`
whose two length fields disagree: size code `N = 2` (implying 512 bytes)
but declared actual data length 256 (bytes 6-7 are `0x00 0x01`). -/
def tibMismatched : List Nat :=
  ((((List.replicate 768 0).set 0x15 1).set 0x1a 0x21).set 0x1b 2).set 0x1f 1

/-- A concrete one-track disk image with consistent sector length fields. -/
def diskConsistent : DiskImage := ⟨diskHeaderOneTrack, tibConsistent⟩

/-- A concrete one-track disk image whose single sector's size code and
declared actual length disagree. -/
def diskMismatched : DiskImage := ⟨diskHeaderOneTrack, tibMismatched⟩

/-! ## General lemmas about the byte-buffer primitives -/

/-- The bytes before an overwritten range are untouched. -/
lemma overwriteAt_take (buf bs : List Nat) (a : Nat) (ha : a ≤ buf.length) :
    (overwriteAt buf a bs).take a = buf.take a := by
  have hlen : (buf.take a).length = a := by simp [ha]
  unfold overwriteAt
  rw [List.append_assoc, List.take_left' hlen]

/-- Reading an overwritten range back yields the bytes written. -/
lemma overwriteAt_readback (buf bs : List Nat) (a : Nat)
    (ha : a ≤ buf.length) :
    ((overwriteAt buf a bs).drop a).take bs.length = bs := by
  have hlen : (buf.take a).length = a := by simp [ha]
  unfold overwriteAt
  rw [List.append_assoc, List.drop_left' hlen, List.take_left' rfl]

/-- The bytes after an overwritten range are untouched (when the range fits
inside the buffer). -/
lemma overwriteAt_drop (buf bs : List Nat) (a : Nat)
    (ha : a + bs.length ≤ buf.length) :
    (overwriteAt buf a bs).drop (a + bs.length) =
      buf.drop (a + bs.length) := by
  have ha' : a ≤ buf.length := le_trans (Nat.le_add_right a bs.length) ha
  have hlen : (buf.take a ++ bs).length = a + bs.length := by simp [ha']
  unfold overwriteAt
  rw [List.drop_left' hlen]

/-! ## Lemmas about the bulk-setter loops -/

/-- If the first `k` colours are in `range(0,32)` and the `k`-th is not,
the `set_inks` loop stores exactly the first `k` colours and then raises a
`ValueError` (either from `_validate_hardware_ink_colour` or from
`set_ink`'s own range check). -/
lemma set_inks_loop_first_bad :
    ∀ (inks header : List Nat) (i k : Nat), i + k ≤ 16 → k < inks.length →
      (∀ j < k, inks.getD j 0 < 32) → ¬ inks.getD k 0 < 32 →
      set_inks_loop header inks i =
        (applyInksFrom header (inks.take k) i, some SnapErr.valueError) := by
  intro inks
  induction inks with
  | nil => intro header i k _ hk _ _; simp at hk
  | cons c rest ih =>
    intro header i k hik hk hprev hbad
    cases k with
    | zero =>
      have hc : ¬ c < 32 := by simpa using hbad
      by_cases hval : validate_hardware_ink_colour c = false
      · simp [set_inks_loop, hval, applyInksFrom]
      · have hval' : validate_hardware_ink_colour c = true := by
          revert hval; cases validate_hardware_ink_colour c <;> simp
        by_cases hi : i < 16
        · simp [set_inks_loop, hval', set_ink, hi, hc, applyInksFrom]
        · simp [set_inks_loop, hval', set_ink, hi, applyInksFrom]
    | succ k' =>
      have hc : c < 32 := by simpa using hprev 0 (Nat.succ_pos k')
      have hval : validate_hardware_ink_colour c = true := by
        unfold validate_hardware_ink_colour
        simp [hc]
      have hi : i < 16 := by omega
      have hrec := ih (header.set (i + 0x2f) c) (i + 1) k' (by omega)
        (by simpa using hk)
        (fun j hj => by simpa using hprev (j + 1) (by omega))
        (by simpa using hbad)
      simp only [set_inks_loop, hval, set_ink, hi, hc]
      simpa [set_inks_loop, set_ink, hi, hc, applyInksFrom] using hrec

/-- If the first `k` register values are in `range(0,256)` and the `k`-th
is not, the `set_crtc_registers` loop stores exactly the first `k` values
and then raises a `ValueError`. -/
lemma set_crtc_registers_loop_first_bad :
    ∀ (registers header : List Nat) (i k : Nat), i + k < 18 →
      k < registers.length →
      (∀ j < k, registers.getD j 0 < 256) → ¬ registers.getD k 0 < 256 →
      set_crtc_registers_loop header registers i =
        (applyCrtcFrom header (registers.take k) i,
          some SnapErr.valueError) := by
  intro registers
  induction registers with
  | nil => intro header i k _ hk _ _; simp at hk
  | cons v rest ih =>
    intro header i k hik hk hprev hbad
    cases k with
    | zero =>
      have hv : ¬ v < 256 := by simpa using hbad
      simp [set_crtc_registers_loop, hv, applyCrtcFrom]
    | succ k' =>
      have hv : v < 256 := by simpa using hprev 0 (Nat.succ_pos k')
      have hi : i < 18 := by omega
      have hrec := ih (header.set (i + 0x43) v) (i + 1) k' (by omega)
        (by simpa using hk)
        (fun j hj => by simpa using hprev (j + 1) (by omega))
        (by simpa using hbad)
      simp only [set_crtc_registers_loop, hv, set_crtc_register, hi]
      simpa [set_crtc_registers_loop, set_crtc_register, hi, hv,
        applyCrtcFrom] using hrec

/-! ## Lemmas about the sector-scan loops -/

/-- When the first matching descriptor sits at index `k`, the
`write_sector` scan either rejects a wrongly sized payload without
touching the buffer or overwrites the byte range that starts past the
first `k` sectors' data. -/
lemma write_sector_loop_first_match :
    ∀ (sis : List SectorInfo) (tib : List Nat) (track sector : Nat)
      (data : List Nat) (ptr k : Nat), k < sis.length →
      (∀ j < k, (sis.getD j dummySector).r ≠ sector) →
      (sis.getD k dummySector).r = sector →
      write_sector_loop tib track sector sis ptr data =
        (if data.length = (sis.getD k dummySector).size then
          (overwriteAt tib (ptr + sectorSizesSum (sis.take k)) data, none)
        else (tib, some (.sectorWriteError track sector))) := by
  intro sis
  induction sis with
  | nil => intro tib track sector data ptr k hk _ _; simp at hk
  | cons si rest ih =>
    intro tib track sector data ptr k hk hprev hr
    cases k with
    | zero =>
      have hr0 : si.r = sector := by simpa using hr
      by_cases hlen : data.length = si.size
      · simp [write_sector_loop, hr0, hlen, sectorSizesSum]
      · simp [write_sector_loop, hr0, hlen, sectorSizesSum]
    | succ k' =>
      have hne : si.r ≠ sector := by simpa using hprev 0 (Nat.succ_pos k')
      have hrec := ih tib track sector data (ptr + si.size) k'
        (by simpa using hk)
        (fun j hj => by simpa using hprev (j + 1) (by omega))
        (by simpa using hr)
      simp only [write_sector_loop, hne, if_neg]
      rw [hrec]
      simp [sectorSizesSum, Nat.add_assoc]

/-- A failing `write_sector` scan returns the buffer unchanged. -/
lemma write_sector_loop_failure_id :
    ∀ (sis : List SectorInfo) (tib : List Nat) (track sector : Nat)
      (data : List Nat) (ptr : Nat) (e : DiskErr),
      (write_sector_loop tib track sector sis ptr data).2 = some e →
      (write_sector_loop tib track sector sis ptr data).1 = tib := by
  intro sis
  induction sis with
  | nil => intro tib track sector data ptr e _; simp [write_sector_loop]
  | cons si rest ih =>
    intro tib track sector data ptr e he
    by_cases hr : si.r = sector
    · by_cases hlen : data.length = si.size
      · simp [write_sector_loop, hr, hlen] at he
      · simp [write_sector_loop, hr, hlen]
    · simp only [write_sector_loop, hr, if_neg, not_false_iff] at he ⊢
      exact ih tib track sector data (ptr + si.size) e he

/-- When the first matching descriptor sits at index `k`, the
`read_sector` scan returns the slice of `128 * 2^N` bytes that starts past
the first `k` sectors' data. -/
lemma read_sector_loop_first_match :
    ∀ (sis : List SectorInfo) (tib : List Nat) (track sector : Nat)
      (ptr k : Nat), k < sis.length →
      (∀ j < k, (sis.getD j dummySector).r ≠ sector) →
      (sis.getD k dummySector).r = sector →
      read_sector_loop tib track sector sis ptr =
        .ok ((tib.drop (ptr + sectorSizesSum (sis.take k))).take
          (128 * 2 ^ (sis.getD k dummySector).n)) := by
  intro sis
  induction sis with
  | nil => intro tib track sector ptr k hk _ _; simp at hk
  | cons si rest ih =>
    intro tib track sector ptr k hk hprev hr
    cases k with
    | zero =>
      have hr0 : si.r = sector := by simpa using hr
      simp [read_sector_loop, hr0, sectorSizesSum]
    | succ k' =>
      have hne : si.r ≠ sector := by simpa using hprev 0 (Nat.succ_pos k')
      have hrec := ih tib track sector (ptr + si.size) k'
        (by simpa using hk)
        (fun j hj => by simpa using hprev (j + 1) (by omega))
        (by simpa using hr)
      simp only [read_sector_loop, hne, if_neg]
      rw [hrec]
      simp [sectorSizesSum, Nat.add_assoc]

/-! ## Claim C1 -/

set_option maxRecDepth 4000 in
/-- Claim C1 (the code evaluated at the failing input): the source's own
hardware-colour validator accepts the alternate OUT-encoding `0x45`, yet
`set_ink` rejects every colour outside `range(0,32)`, so setting ink 5 to
colour `0x45` raises a `ValueError` — both directly and through
`set_inks` — instead of being accepted and normalized; setting it to
`0x05` succeeds. -/
theorem set_ink_rejects_alternate_encoding :
    validate_hardware_ink_colour 0x45 = true ∧
    (∀ header : List Nat,
        set_ink header 5 0x45 = (header, some SnapErr.valueError)) ∧
    (∀ header : List Nat,
        set_ink header 5 0x05 = (header.set (5 + 0x2f) 0x05, none)) ∧
    set_inks zeroHeader [0, 0, 0, 0, 0, 0x45] =
      (applyInksFrom zeroHeader [0, 0, 0, 0, 0] 0, some SnapErr.valueError) := by
  refine ⟨by decide, fun header => ?_, fun header => ?_, by decide⟩
  · simp [set_ink]
  · simp [set_ink]

/-! ## Claim C2 -/

/-- Claim C2 counterexample: `set_inks` on the all-zero header with
`[1, 99]` (the second element invalid) fails with a `ValueError`, yet the
returned header differs from the original — ink 0 was already set to 1
before validation of the second element; `set_crtc_registers` with
`[1, 300]` behaves the same way. -/
theorem bulk_setters_mutate_before_failing :
    ((set_inks zeroHeader [1, 99]).2 = some SnapErr.valueError ∧
      (set_inks zeroHeader [1, 99]).1 ≠ zeroHeader) ∧
    ((set_crtc_registers zeroHeader [1, 300]).2 = some SnapErr.valueError ∧
      (set_crtc_registers zeroHeader [1, 300]).1 ≠ zeroHeader) := by
  decide

/-- Claim C2 amended: the bulk setters validate the list size up front but
validate elements one at a time, interleaved with mutation.  If every
element before position `k` is valid and the element at `k` is not, the
call aborts with a `ValueError` having already stored elements
`0 .. k-1`; the header is left unchanged only when `k = 0`. -/
theorem bulk_setters_apply_valid_elements_up_to_failure :
    (∀ (header inks : List Nat) (k : Nat),
        1 ≤ inks.length → inks.length < 17 → k < inks.length →
        (∀ j < k, inks.getD j 0 < 32) → ¬ inks.getD k 0 < 32 →
        set_inks header inks =
          (applyInksFrom header (inks.take k) 0, some SnapErr.valueError)) ∧
    (∀ (header registers : List Nat) (k : Nat),
        1 ≤ registers.length → registers.length < 18 →
        k < registers.length →
        (∀ j < k, registers.getD j 0 < 256) →
        ¬ registers.getD k 0 < 256 →
        set_crtc_registers header registers =
          (applyCrtcFrom header (registers.take k) 0,
            some SnapErr.valueError)) := by
  constructor
  · intro header inks k h1 h2 hk hprev hbad
    have hsz : 1 ≤ inks.length ∧ inks.length < 17 := ⟨h1, h2⟩
    simp only [set_inks, hsz, not_true_eq_false, if_false, and_self,
      not_not]
    exact set_inks_loop_first_bad inks header 0 k (by omega) hk hprev hbad
  · intro header registers k h1 h2 hk hprev hbad
    have hsz : 1 ≤ registers.length ∧ registers.length < 18 := ⟨h1, h2⟩
    simp only [set_crtc_registers, hsz, not_true_eq_false, if_false,
      and_self, not_not]
    exact set_crtc_registers_loop_first_bad registers header 0 k (by omega)
      hk hprev hbad

/-- Witness for the amended Claim C2: `set_inks zeroHeader [1, 99]` aborts
on element 1 having already applied the one-element valid prefix `[1]`. -/
theorem bulk_setters_apply_valid_elements_up_to_failure_witness :
    set_inks zeroHeader [1, 99] =
      (applyInksFrom zeroHeader [1] 0, some SnapErr.valueError) :=
  bulk_setters_apply_valid_elements_up_to_failure.1 zeroHeader [1, 99] 1
    (by decide) (by decide) (by decide) (by decide) (by decide)

/-! ## Claim C5 -/

/-- Claim C5 (the code evaluated at the failing input): the length check
of `set_crtc_registers` uses `range(1,18)`, so a list of exactly 18 values
is rejected with `ListSizeError(1, 18)` — whose own message says between 1
and 18 items are allowed — while a list of 17 values is accepted. -/
theorem set_crtc_registers_rejects_eighteen :
    (∀ header : List Nat,
        set_crtc_registers header (List.replicate 18 0) =
          (header, some (SnapErr.listSizeError 1 18))) ∧
    (set_crtc_registers zeroHeader (List.replicate 17 0)).2 = none := by
  refine ⟨fun header => ?_, by decide⟩
  simp [set_crtc_registers]

/-! ## Claim C9 -/

/-- Claim C9 counterexample: a header whose ink-5 byte stores hardware
value 1 makes `get_firmware_ink` return 27, outside the firmware domain
`[0, 26]` claimed by the specification. -/
theorem get_firmware_ink_exceeds_firmware_domain :
    get_firmware_ink (zeroHeader.set (5 + 0x2f) 1) 5 = some 27 ∧
      ¬ (27 : Nat) ≤ 26 := by
  decide

/-- Claim C9 amended: `firmware_inks` is a 32-entry permutation of
`0 .. 31`, so for every header state whose masked hardware value is a
valid table index (below 32), `get_firmware_ink` — and hence every
defined element of `get_firmware_inks` — returns a value in `[0, 31]`
(not `[0, 26]`: the five duplicate hardware colours map to 27-31). -/
theorem get_firmware_ink_range :
    (∀ (header : List Nat) (ink : Nat),
        header.getD (ink + 0x2f) 0 &&& 0x3f < 32 →
        ∃ v, get_firmware_ink header ink = some v ∧ v < 32) ∧
    (∀ header : List Nat,
        (∀ i < 16, header.getD (i + 0x2f) 0 &&& 0x3f < 32) →
        ∀ o ∈ get_firmware_inks header, ∃ v, o = some v ∧ v < 32) := by
  have key : ∀ (header : List Nat) (ink : Nat),
      header.getD (ink + 0x2f) 0 &&& 0x3f < 32 →
      ∃ v, get_firmware_ink header ink = some v ∧ v < 32 := by
    intro header ink hmask
    have hlen : header.getD (ink + 0x2f) 0 &&& 0x3f < firmware_inks.length := by
      simpa [firmware_inks] using hmask
    obtain ⟨v, hv⟩ : ∃ v,
        firmware_inks.get? (header.getD (ink + 0x2f) 0 &&& 0x3f) = some v := by
      rw [List.get?_eq_get hlen]
      exact ⟨_, rfl⟩
    refine ⟨v, hv, ?_⟩
    have hall : ∀ x ∈ firmware_inks, x < 32 := by decide
    exact hall v (List.get?_mem hv)
  refine ⟨key, ?_⟩
  intro header hall o ho
  simp only [get_firmware_inks, List.mem_map, List.mem_range] at ho
  obtain ⟨i, hi, rfl⟩ := ho
  obtain ⟨v, hv, hv32⟩ := key header i (hall i hi)
  exact ⟨v, hv, hv32⟩

/-- Witness for the amended Claim C9: the all-zero header stores hardware
value 0 for ink 0, and `get_firmware_ink` maps it into `[0, 31]`. -/
theorem get_firmware_ink_range_witness :
    ∃ v, get_firmware_ink zeroHeader 0 = some v ∧ v < 32 :=
  get_firmware_ink_range.1 zeroHeader 0 (by decide)

/-! ## Claim C3 -/

set_option maxHeartbeats 1000000 in
set_option synthInstance.maxSize 512 in
/-- Claim C3: the pixel codec round-trips in both supported screen modes:
encoding any two Mode 0 pixel values in `[0, 15]` and decoding the byte
with mode 0 returns the original pair, and encoding any four Mode 1 pixel
values in `[0, 3]` and decoding with mode 1 returns the original
quadruple. -/
theorem encode_decode_pixels_round_trip :
    (∀ l < 16, ∀ r < 16,
        (encode_pixels [l, r]).bind (fun b => decode_pixels b 0) =
          .ok [l, r]) ∧
    (∀ p < 4, ∀ q < 4, ∀ u < 4, ∀ v < 4,
        (encode_pixels [p, q, u, v]).bind (fun b => decode_pixels b 1) =
          .ok [p, q, u, v]) := by
  decide

/-- Witness for Claim C3: the round-trip at the concrete pixel pair
`[3, 12]` in Mode 0. -/
theorem encode_decode_pixels_round_trip_witness :
    (encode_pixels [3, 12]).bind (fun b => decode_pixels b 0) =
      .ok [3, 12] :=
  encode_decode_pixels_round_trip.1 3 (by decide) 12 (by decide)

/-! ## Claim C4 -/

/-- Claim C4: any byte stream accepted by the disk-image constructor
(valid 23-byte magic signature) is reproduced byte for byte by
concatenating the parsed header with the parsed track information
block. -/
theorem disk_image_parse_serialize (s : List Nat) (d : DiskImage)
    (h : DiskImage.ofStream s = Except.ok d) :
    d.serialize = s := by
  by_cases hm : (s.take 256).take 23 ≠ diskImageMagic
  · simp [DiskImage.ofStream, hm] at h
  · simp only [DiskImage.ofStream, hm, if_false, not_false_iff, ite_not,
      if_pos, Except.ok.injEq] at h
    rw [← h]
    simp only [DiskImage.serialize]
    exact List.take_append_drop 256 s

/-- Witness for Claim C4: parsing the bare magic signature succeeds and
serializes back to itself. -/
theorem disk_image_parse_serialize_witness :
    DiskImage.serialize ⟨diskImageMagic, []⟩ = diskImageMagic :=
  disk_image_parse_serialize diskImageMagic ⟨diskImageMagic, []⟩ (by decide)

/-! ## Claim C8 -/

/-- Claim C8: for a valid track number whose declared size code is zero,
sector enumeration returns the empty list and `read_sector` fails with the
track-has-no-data error for every sector ID (never sector-not-found); a
track number out of range fails with the distinct invalid-track error in
both operations. -/
theorem track_without_data_vs_invalid_track (d : DiskImage) (track : Nat) :
    (track < d.number_of_tracks → d.track_size track = 0 →
      d.get_sector_info track = .ok [] ∧
      ∀ sector, d.read_sector track sector =
        .error (DiskErr.trackDataError track)) ∧
    (¬ track < d.number_of_tracks →
      d.get_sector_info track = .error (DiskErr.invalidTrackError track) ∧
      ∀ sector, d.read_sector track sector =
        .error (DiskErr.invalidTrackError track)) := by
  constructor
  · intro h1 h2
    refine ⟨by simp [DiskImage.get_sector_info, h1, h2], fun sector => ?_⟩
    simp [DiskImage.read_sector, h1, h2]
  · intro h1
    refine ⟨by simp [DiskImage.get_sector_info, h1], fun sector => ?_⟩
    simp [DiskImage.read_sector, h1]

set_option maxRecDepth 40000 in
/-- Witness for Claim C8: on the concrete image whose header declares one
track with size code zero, track 0 enumerates no sectors and reads fail
with the no-data error, while track 1 is an invalid track. -/
theorem track_without_data_vs_invalid_track_witness :
    diskNoData.get_sector_info 0 = .ok [] ∧
    diskNoData.read_sector 0 0x2a = .error (DiskErr.trackDataError 0) ∧
    diskNoData.get_sector_info 1 =
      .error (DiskErr.invalidTrackError 1) := by
  have h0 := (track_without_data_vs_invalid_track diskNoData 0).1
    (by decide) (by decide)
  have h1 := (track_without_data_vs_invalid_track diskNoData 1).2
    (by decide)
  exact ⟨h0.1, h0.2 0x2a, h1.1⟩

/-! ## Claim C6 -/

/-- Claim C6: when a sector ID is present in a track's descriptor list
(first match at position `k`), `write_sector` fails with the
sector-write-size error whenever the payload length differs from that
descriptor's declared actual byte length; any failing call returns the
track information block unchanged; and only when the lengths agree is the
byte range (starting past the first `k` sectors' data) overwritten in
place. -/
theorem write_sector_requires_exact_length (d : DiskImage)
    (track sector k : Nat) (data : List Nat)
    (htrack : track < d.number_of_tracks)
    (hdata : d.track_size track ≠ 0)
    (hk : k < (d.sector_descriptors track).length)
    (hfirst : ∀ j < k,
      ((d.sector_descriptors track).getD j dummySector).r ≠ sector)
    (hr : ((d.sector_descriptors track).getD k dummySector).r = sector) :
    (data.length ≠ ((d.sector_descriptors track).getD k dummySector).size →
      d.write_sector track sector data =
        (d.track_info_block, some (DiskErr.sectorWriteError track sector))) ∧
    (data.length = ((d.sector_descriptors track).getD k dummySector).size →
      d.write_sector track sector data =
        (overwriteAt d.track_info_block
          (d.track_offset track + 0x100 +
            sectorSizesSum ((d.sector_descriptors track).take k)) data,
          none)) ∧
    (∀ (data' : List Nat) (e : DiskErr),
      (d.write_sector track sector data').2 = some e →
      (d.write_sector track sector data').1 = d.track_info_block) := by
  have hw : d.write_sector track sector data =
      write_sector_loop d.track_info_block track sector
        (d.sector_descriptors track)
        (d.track_offset track + 0x100) data := by
    simp [DiskImage.write_sector, htrack, hdata]
  have hmatch := write_sector_loop_first_match (d.sector_descriptors track)
    d.track_info_block track sector data
    (d.track_offset track + 0x100) k hk hfirst hr
  refine ⟨fun hne => ?_, fun heq => ?_, fun data' e he => ?_⟩
  · rw [hw, hmatch, if_neg hne]
  · rw [hw, hmatch, if_pos heq]
  · by_cases ht : track < d.number_of_tracks
    · by_cases hz : d.track_size track = 0
      · simp [DiskImage.write_sector, ht, hz]
      · have hw' : d.write_sector track sector data' =
            write_sector_loop d.track_info_block track sector
              (d.sector_descriptors track)
              (d.track_offset track + 0x100) data' := by
          simp [DiskImage.write_sector, ht, hz]
        rw [hw'] at he ⊢
        exact write_sector_loop_failure_id (d.sector_descriptors track)
          d.track_info_block track sector data'
          (d.track_offset track + 0x100) e he
    · simp [DiskImage.write_sector, ht]

set_option maxRecDepth 40000 in
/-- Witness for Claim C6: on the concrete one-track image, writing 5 bytes
to sector `0x21` (declared length 512) fails with the sector-write-size
error and returns the track information block unchanged. -/
theorem write_sector_requires_exact_length_witness :
    diskConsistent.write_sector 0 0x21 (List.replicate 5 0) =
      (diskConsistent.track_info_block,
        some (DiskErr.sectorWriteError 0 0x21)) :=
  (write_sector_requires_exact_length diskConsistent 0 0x21 0
    (List.replicate 5 0) (by decide) (by decide) (by decide) (by decide)
    (by decide)).1 (by decide)

/-! ## Claim C10 -/

/-- Claim C10: `read_sector` returns the slice whose length is
`128 * 2^N`, with `N` the descriptor's size-code field — not the
descriptor's declared actual byte length that `write_sector` enforces and
that positions the following sectors — so when the data extends that far,
the returned payload length is `128 * 2^N` and differs from the declared
length whenever the two fields disagree. -/
theorem read_sector_uses_size_code (d : DiskImage)
    (track sector k : Nat)
    (htrack : track < d.number_of_tracks)
    (hdata : d.track_size track ≠ 0)
    (hk : k < (d.sector_descriptors track).length)
    (hfirst : ∀ j < k,
      ((d.sector_descriptors track).getD j dummySector).r ≠ sector)
    (hr : ((d.sector_descriptors track).getD k dummySector).r = sector) :
    d.read_sector track sector =
      .ok ((d.track_info_block.drop
        (d.track_offset track + 0x100 +
          sectorSizesSum ((d.sector_descriptors track).take k))).take
        (128 * 2 ^ ((d.sector_descriptors track).getD k dummySector).n)) ∧
    (d.track_offset track + 0x100 +
        sectorSizesSum ((d.sector_descriptors track).take k) +
        128 * 2 ^ ((d.sector_descriptors track).getD k dummySector).n ≤
        d.track_info_block.length →
      ∀ out, d.read_sector track sector = .ok out →
        out.length =
          128 * 2 ^ ((d.sector_descriptors track).getD k dummySector).n ∧
        (128 * 2 ^ ((d.sector_descriptors track).getD k dummySector).n ≠
            ((d.sector_descriptors track).getD k dummySector).size →
          out.length ≠
            ((d.sector_descriptors track).getD k dummySector).size)) := by
  have hread : d.read_sector track sector =
      .ok ((d.track_info_block.drop
        (d.track_offset track + 0x100 +
          sectorSizesSum ((d.sector_descriptors track).take k))).take
        (128 * 2 ^ ((d.sector_descriptors track).getD k dummySector).n)) := by
    have hloop := read_sector_loop_first_match (d.sector_descriptors track)
      d.track_info_block track sector
      (d.track_offset track + 0x100) k hk hfirst hr
    simp [DiskImage.read_sector, htrack, hdata, hloop]
  refine ⟨hread, fun hfits out hout => ?_⟩
  rw [hread] at hout
  have hout' := Except.ok.inj hout
  have hlen : out.length =
      128 * 2 ^ ((d.sector_descriptors track).getD k dummySector).n := by
    rw [← hout']
    rw [List.length_take, List.length_drop]
    omega
  exact ⟨hlen, fun hne => by rw [hlen]; exact hne⟩

set_option maxRecDepth 40000 in
/-- Witness for Claim C10: on the concrete image whose sector declares
size code 2 (implying 512 bytes) but actual length 256, `read_sector`
returns a 512-byte payload, which differs from the declared length. -/
theorem read_sector_uses_size_code_witness :
    ∃ out, diskMismatched.read_sector 0 0x21 = .ok out ∧
      out.length = 512 ∧ out.length ≠ 256 := by
  have h := read_sector_uses_size_code diskMismatched 0 0x21 0
    (by decide) (by decide) (by decide) (by decide) (by decide)
  obtain ⟨out, hout⟩ : ∃ out, diskMismatched.read_sector 0 0x21 = .ok out :=
    ⟨_, h.1⟩
  have h2 := h.2 (by decide) out hout
  have hn : (128 : Nat) * 2 ^
      ((diskMismatched.sector_descriptors 0).getD 0 dummySector).n = 512 := by
    decide
  have hs : ((diskMismatched.sector_descriptors 0).getD 0 dummySector).size
      = 256 := by decide
  refine ⟨out, hout, ?_, ?_⟩
  · rw [h2.1, hn]
  · have := h2.2 (by rw [hn, hs]; decide)
    rw [hs] at this
    exact this

/-! ## Claim C7 -/

/-- Claim C7: for a snapshot memory of 64 or 128 KiB, `insert_bytes` fails
with the memory error exactly when the target range crosses the 64 KiB
boundary or runs past the end of memory (leaving memory unchanged, as the
failure carries no mutation), and otherwise overwrites exactly the target
range in place; concretely, a 10-byte buffer at `0xFFFC` into a 64 KiB
memory fails while the same buffer at `0xFFF0` succeeds and reads back
unchanged. -/
theorem insert_bytes_boundary_checks (memory bs : List Nat) (start : Nat)
    (hmem : memory.length = 65536 ∨ memory.length = 131072) :
    (insert_bytes memory bs start = .error SnapErr.memoryError ↔
      ((start < 0x10000 ∧ 0x10000 ≤ bs.length + start - 1) ∨
        memory.length ≤ bs.length + start - 1)) ∧
    (∀ out, insert_bytes memory bs start = .ok out →
      out.take start = memory.take start ∧
      (out.drop start).take bs.length = bs ∧
      out.drop (start + bs.length) = memory.drop (start + bs.length)) ∧
    insert_bytes (List.replicate 65536 0) (List.replicate 10 7) 0xFFFC =
      .error SnapErr.memoryError ∧
    (∃ out, insert_bytes (List.replicate 65536 0) (List.replicate 10 7)
        0xFFF0 = .ok out ∧
      (out.drop 0xFFF0).take 10 = List.replicate 10 7) := by
  refine ⟨?_, ?_, by decide, ?_⟩
  · unfold insert_bytes
    split_ifs with h1 h2
    · exact iff_of_true rfl (Or.inl h1)
    · exact iff_of_true rfl (Or.inr h2.2)
    · refine iff_of_false (by simp) ?_
      omega
  · intro out hout
    unfold insert_bytes at hout
    split_ifs at hout with h1 h2
    have hfit : start + bs.length ≤ memory.length := by omega
    have hstart : start ≤ memory.length := by omega
    have hout' := Except.ok.inj hout
    rw [← hout']
    exact ⟨overwriteAt_take memory bs start hstart,
      overwriteAt_readback memory bs start hstart,
      overwriteAt_drop memory bs start hfit⟩
  · refine ⟨overwriteAt (List.replicate 65536 0) 0xFFF0
      (List.replicate 10 7), ?_, ?_⟩
    · unfold insert_bytes
      rw [if_neg (by decide), if_neg ?hc]
      case hc =>
        rw [List.length_replicate]
        decide
    · have hrb := overwriteAt_readback (List.replicate 65536 0)
        (List.replicate 10 7) 0xFFF0 (by rw [List.length_replicate]; omega)
      rw [List.length_replicate] at hrb
      exact hrb

/-- Witness for Claim C7: the boundary characterization applied to the
concrete 64 KiB memory, showing the crossing insertion at `0xFFFC` is
rejected. -/
theorem insert_bytes_boundary_checks_witness :
    insert_bytes (List.replicate 65536 0) (List.replicate 10 7) 0xFFFC =
      .error SnapErr.memoryError :=
  ((insert_bytes_boundary_checks (List.replicate 65536 0)
      (List.replicate 10 7) 0xFFFC
      (Or.inl (by rw [List.length_replicate]))).1).mpr
    (Or.inl (by rw [List.length_replicate]; omega))
